import Mathlib

/-!
Shallow embedding of the authentication-and-quota gateway of the repository:
the token ledger (`src/src/database.py`), the sliding-window rate limiter
(`src/src/rate_limit.py`), and the gateway dependency that composes them
(`RateLimiter.check_rate_limit_dependency`).

Timestamps (Python `time.time()` floats and SQL datetimes) are modelled as
integers (an arbitrary clock tick; every claim here depends only on the
ordering of instants and on offsets by whole windows). A single call to
`check_rate_limit` is modelled as happening at one instant `now` (the code
calls `time.time()` several times inside one call, at instants that are equal
up to microseconds and irrelevant to the claims). Machine integers are Python
bignums, so `Int`/`Nat` model them exactly.
-/

namespace DtseTask

/-! ## Token ledger (`src/src/database.py`)

The `api_tokens` table: `id INTEGER PRIMARY KEY AUTOINCREMENT`,
`token TEXT UNIQUE NOT NULL`, `created_at TIMESTAMP DEFAULT CURRENT_TIMESTAMP`,
`expires_at TIMESTAMP`, `is_active BOOLEAN DEFAULT 1`. -/

structure ApiTokenRow where
  id : Nat
  token : String
  created_at : ℤ
  expires_at : Option ℤ
  is_active : Bool
deriving DecidableEq, Repr

/-- The durable state of the ledger: the rows of `api_tokens` in insertion
order, plus the next AUTOINCREMENT id. -/
structure Database where
  api_tokens : List ApiTokenRow
  next_id : Nat
deriving DecidableEq, Repr

def emptyDatabase : Database := { api_tokens := [], next_id := 1 }

inductive DbError
  | duplicateToken
deriving DecidableEq, Repr

/-- Whether some row has the given token string (the `UNIQUE` constraint on
`token`, and the `WHERE token = ?` match of `UPDATE`). -/
def tokenExists (db : Database) (token : String) : Bool :=
  db.api_tokens.any (fun r => r.token == token)

/-- `DatabaseManager.create_api_token`: `INSERT INTO api_tokens (token,
expires_at) VALUES (?, ?)`. The `UNIQUE` constraint on `token` makes the
insert fail on a duplicate; the `except` branch rolls the transaction back,
leaving the state unchanged, and re-raises (modelled as `DbError`). The pair
returns the result together with the post-call state. -/
def create_api_token (db : Database) (token : String) (expires_at : Option ℤ)
    (now : ℤ) : Except DbError Nat × Database :=
  if tokenExists db token then
    (Except.error DbError.duplicateToken, db)
  else
    (Except.ok db.next_id,
      { api_tokens := db.api_tokens ++
          [{ id := db.next_id, token := token, created_at := now,
             expires_at := expires_at, is_active := true }],
        next_id := db.next_id + 1 })

/-- `DatabaseManager.deactivate_api_token`: `UPDATE api_tokens SET is_active
= 0 WHERE token = ?`; returns `cursor.rowcount > 0`, i.e. whether any row
matched the `WHERE` clause (SQLite counts a row as changed even when the new
value equals the old one). -/
def deactivate_api_token (db : Database) (token : String) : Bool × Database :=
  (tokenExists db token,
   { db with api_tokens := db.api_tokens.map (fun r =>
       if r.token == token then { r with is_active := false } else r) })

/-- `DatabaseManager.validate_api_token`: `SELECT id FROM api_tokens WHERE
token = ? AND is_active = 1 AND (expires_at IS NULL OR expires_at >
datetime('now'))`; true iff the select returns a row. -/
def validate_api_token (db : Database) (token : String) (now : ℤ) : Bool :=
  db.api_tokens.any (fun r =>
    r.token == token && r.is_active &&
      (match r.expires_at with
       | none => true
       | some e => decide (now < e)))

/-! ## Rate limiter (`src/src/rate_limit.py`) -/

def DEFAULT_REQUESTS_PER_MINUTE : Nat := 100

def DEFAULT_WINDOW_SECONDS : ℤ := 60

inductive LimiterError
  | tokenRequired
  | indexError
deriving DecidableEq, Repr

/-- The mutable state of the `RateLimiter` singleton. `token_requests` models
the `defaultdict(list)`: a total map from token to its recorded timestamps,
defaulting to the empty list. -/
structure RateLimiter where
  requests_per_minute : Nat
  window_seconds : ℤ
  token_requests : String → List ℤ
  db_manager : Option Database

/-- Point update of the token map: `self.token_requests[token] = v`. -/
def updateMap (m : String → List ℤ) (k : String) (v : List ℤ) :
    String → List ℤ :=
  fun k' => if k' = k then v else m k'

/-- First-time `RateLimiter.__init__`: stores the parameters and an empty
request map. -/
def initLimiter (rpm : Nat) (ws : ℤ) (db : Option Database) : RateLimiter :=
  { requests_per_minute := rpm, window_seconds := ws,
    token_requests := fun _ => [], db_manager := db }

/-- `RateLimiter.__init__` invoked again on the already-initialized singleton
(the `else` branch): updates `db_manager` when one is passed; when
`requests_per_minute` differs from the default it is updated and the whole
request map is cleared; when `window_seconds` differs from the default it is
updated (without clearing). -/
def reinitLimiter (rl : RateLimiter) (rpm : Nat) (ws : ℤ)
    (db : Option Database) : RateLimiter :=
  let rl1 := match db with
    | some d => { rl with db_manager := some d }
    | none => rl
  let rl2 := if rpm ≠ DEFAULT_REQUESTS_PER_MINUTE then
      { rl1 with requests_per_minute := rpm, token_requests := fun _ => [] }
    else rl1
  if ws ≠ DEFAULT_WINDOW_SECONDS then { rl2 with window_seconds := ws }
  else rl2

/-- `RateLimiter._cleanup_old_requests`: keep only the timestamps strictly
newer than `now - window_seconds`. -/
def cleanup_old_requests (rl : RateLimiter) (token : String) (now : ℤ) :
    RateLimiter :=
  let kept := (rl.token_requests token).filter
    (fun ts => decide (now - rl.window_seconds < ts))
  { rl with token_requests := updateMap rl.token_requests token kept }

/-- `max(0, int(x))` from the source: on an integer-valued instant the inner
Python `int()` truncation is the identity, so only the clamping to 0
remains. -/
def clampTime (x : ℤ) : Int :=
  if x < 0 then 0 else x

/-- `RateLimiter.check_rate_limit`. An empty token raises (`HTTPException
401 "Token is required"`, modelled as `LimiterError.tokenRequired`) before any
state is touched. Otherwise the window is purged, counted and compared with
the limit; on deny the code reads `self.token_requests[token][0]`, which on an
empty purged window raises `IndexError` (state already purged); on allow `now`
is appended and `remaining = limit - count_before_insertion - 1`.
Returns the Python return value (or raised error) together with the post-call
state. -/
def check_rate_limit (rl : RateLimiter) (token : String) (now : ℤ) :
    Except LimiterError (Bool × Int × Int) × RateLimiter :=
  if token = "" then (Except.error LimiterError.tokenRequired, rl)
  else
    let rl1 := cleanup_old_requests rl token now
    let current_count := (rl1.token_requests token).length
    if rl1.requests_per_minute ≤ current_count then
      match rl1.token_requests token with
      | [] => (Except.error LimiterError.indexError, rl1)
      | oldest :: _ =>
        let remaining_time := clampTime (rl1.window_seconds - (now - oldest))
        (Except.ok (false, 0, remaining_time), rl1)
    else
      let appended := updateMap rl1.token_requests token
        (rl1.token_requests token ++ [now])
      let rl2 := { rl1 with token_requests := appended }
      let oldest := match rl2.token_requests token with
        | [] => now
        | o :: _ => o
      let remaining_time := clampTime (rl2.window_seconds - (now - oldest))
      let remaining : Int :=
        (rl1.requests_per_minute : Int) - current_count - 1
      (Except.ok (true, remaining, remaining_time), rl2)

/-- `RateLimiter.reset_token_limit`: `self.token_requests[token] = []`. -/
def reset_token_limit (rl : RateLimiter) (token : String) : RateLimiter :=
  { rl with token_requests := updateMap rl.token_requests token [] }

/-- Projection of a `check_rate_limit` call onto the `(allowed, remaining)`
components of its result (`none` when the call raised). -/
def checkOutcome (rl : RateLimiter) (token : String) (now : ℤ) :
    Option (Bool × Int) :=
  match (check_rate_limit rl token now).1 with
  | Except.ok (a, r, _) => some (a, r)
  | Except.error _ => none

/-- The limiter state after a `check_rate_limit` call. -/
def checkNext (rl : RateLimiter) (token : String) (now : ℤ) : RateLimiter :=
  (check_rate_limit rl token now).2

/-! ## Gateway (`RateLimiter.check_rate_limit_dependency`) -/

inductive GatewayError
  | authInvalid
  | rateLimited
  | limiterFailure (e : LimiterError)
deriving DecidableEq, Repr

/-- The tail of `check_rate_limit_dependency`: run `check_rate_limit` and
turn a deny into `HTTPException 429` (modelled as
`GatewayError.rateLimited`); an exception raised by `check_rate_limit`
propagates. -/
def rateLimitStep (rl : RateLimiter) (token : String) (now : ℤ) :
    Except GatewayError String × RateLimiter :=
  match check_rate_limit rl token now with
  | (Except.error e, rl2) => (Except.error (GatewayError.limiterFailure e), rl2)
  | (Except.ok (is_allowed, _, _), rl2) =>
    if is_allowed then (Except.ok token, rl2)
    else (Except.error GatewayError.rateLimited, rl2)

/-- `RateLimiter.check_rate_limit_dependency`: when a `db_manager` is
configured and `validate_api_token` fails, raise `HTTPException 401`
(modelled as `GatewayError.authInvalid`) before the limiter is consulted;
otherwise fall through to `check_rate_limit`. -/
def check_rate_limit_dependency (rl : RateLimiter) (token : String)
    (now : ℤ) : Except GatewayError String × RateLimiter :=
  match rl.db_manager with
  | some db =>
    if validate_api_token db token now then rateLimitStep rl token now
    else (Except.error GatewayError.authInvalid, rl)
  | none => rateLimitStep rl token now

/-! ## Helper lemmas -/

theorem updateMap_same (m : String → List ℤ) (k : String) (v : List ℤ) :
    updateMap m k v k = v := by
  simp [updateMap]

theorem updateMap_other (m : String → List ℤ) (k k' : String) (v : List ℤ)
    (h : k' ≠ k) : updateMap m k v k' = m k' := by
  simp [updateMap, h]

theorem updateMap_updateMap (m : String → List ℤ) (k : String)
    (v w : List ℤ) : updateMap (updateMap m k v) k w = updateMap m k w := by
  funext k'
  by_cases h : k' = k <;> simp [updateMap, h]

theorem tokenExists_iff (db : Database) (t : String) :
    tokenExists db t = true ↔ ∃ r ∈ db.api_tokens, r.token = t := by
  simp [tokenExists, List.any_eq_true]

theorem tokenExists_deactivate (db : Database) (t t' : String) :
    tokenExists (deactivate_api_token db t).2 t' = tokenExists db t' := by
  simp only [tokenExists, deactivate_api_token, List.any_map]
  congr 1
  funext r
  by_cases h : r.token == t <;> simp [h, Function.comp]

theorem validRow_iff (r : ApiTokenRow) (t : String) (now : ℤ) :
    (r.token == t && r.is_active &&
      (match r.expires_at with
       | none => true
       | some e => decide (now < e))) = true ↔
    (r.token = t ∧ r.is_active = true ∧
      (r.expires_at = none ∨ ∃ e, r.expires_at = some e ∧ now < e)) := by
  cases h : r.expires_at <;>
    simp [h, Bool.and_eq_true, beq_iff_eq, and_assoc]

theorem validate_iff (db : Database) (t : String) (now : ℤ) :
    validate_api_token db t now = true ↔
      ∃ r, r ∈ db.api_tokens ∧ r.token = t ∧ r.is_active = true ∧
        (r.expires_at = none ∨ ∃ e, r.expires_at = some e ∧ now < e) := by
  rw [validate_api_token, List.any_eq_true]
  exact exists_congr fun r => and_congr_right fun _ => validRow_iff r t now

/-! ## Claim theorems -/

/-- A one-row ledger used by witnesses: token `"abc"`, active, no expiry. -/
def sampleRow : ApiTokenRow :=
  ⟨1, "abc", 0, none, true⟩

/-- The ledger holding exactly `sampleRow`. -/
def sampleDb : Database :=
  ⟨[sampleRow], 2⟩

/-- C2: `deactivate` is idempotent in its observable result: when a row with
token `t` exists, the first `deactivate(t)` returns `true` and a second
`deactivate(t)` on the resulting (already-inactive) state still returns
`true`; `deactivate(t)` returns `false` exactly when no row with token `t`
was ever created. -/
theorem deactivate_idempotent_effect (db : Database) (t : String) :
    ((∃ r ∈ db.api_tokens, r.token = t) →
      (deactivate_api_token db t).1 = true ∧
      (deactivate_api_token (deactivate_api_token db t).2 t).1 = true) ∧
    ((deactivate_api_token db t).1 = false ↔
      ¬ ∃ r ∈ db.api_tokens, r.token = t) := by
  have h1 : (deactivate_api_token db t).1 = tokenExists db t := rfl
  have h2 : (deactivate_api_token (deactivate_api_token db t).2 t).1 =
      tokenExists (deactivate_api_token db t).2 t := rfl
  constructor
  · intro hex
    have := (tokenExists_iff db t).mpr hex
    refine ⟨by rw [h1]; exact this, ?_⟩
    rw [h2, tokenExists_deactivate]
    exact this
  · rw [h1]
    constructor
    · intro hfalse hex
      rw [(tokenExists_iff db t).mpr hex] at hfalse
      exact Bool.noConfusion hfalse
    · intro hnex
      cases hcase : tokenExists db t with
      | false => rfl
      | true => exact absurd ((tokenExists_iff db t).mp hcase) hnex

/-- Witness for C2 on a one-row ledger: both the first and the second
`deactivate` report a match. -/
theorem deactivate_idempotent_effect_witness :
    (deactivate_api_token sampleDb "abc").1 = true ∧
    (deactivate_api_token (deactivate_api_token sampleDb "abc").2 "abc").1
      = true :=
  (deactivate_idempotent_effect sampleDb "abc").1
    ⟨sampleRow, by simp [sampleDb], rfl⟩

/-- C4: `validate(t)` is true iff a record with token `t` exists that is
active and whose `expires_at` is unset or strictly later than `now`; and a
token freshly created with `expires_at` in the past fails `validate` even
though its `is_active` flag is true. -/
theorem validate_spec (db : Database) (t : String) (now : ℤ) :
    (validate_api_token db t now = true ↔
      ∃ r, r ∈ db.api_tokens ∧ r.token = t ∧ r.is_active = true ∧
        (r.expires_at = none ∨ ∃ e, r.expires_at = some e ∧ now < e)) ∧
    (∀ e c : ℤ, e ≤ now → tokenExists db t = false →
      validate_api_token (create_api_token db t (some e) c).2 t now = false ∧
      ∃ r, r ∈ (create_api_token db t (some e) c).2.api_tokens ∧
        r.token = t ∧ r.is_active = true) := by
  refine ⟨validate_iff db t now, ?_⟩
  intro e c he hne
  have hrows : (create_api_token db t (some e) c).2.api_tokens =
      db.api_tokens ++ [⟨db.next_id, t, c, some e, true⟩] := by
    simp [create_api_token, hne]
  constructor
  · cases hval : validate_api_token (create_api_token db t (some e) c).2 t now
    · rfl
    · exfalso
      obtain ⟨r, hr, hrt, _, hexp⟩ := (validate_iff _ t now).mp hval
      rw [hrows, List.mem_append] at hr
      cases hr with
      | inl hold =>
        have : tokenExists db t = true :=
          (tokenExists_iff db t).mpr ⟨r, hold, hrt⟩
        rw [hne] at this
        exact Bool.false_ne_true this
      | inr hnew =>
        simp only [List.mem_singleton] at hnew
        subst hnew
        cases hexp with
        | inl hnone => simp at hnone
        | inr hsome =>
          obtain ⟨e', he', hlt⟩ := hsome
          simp only [Option.some.injEq] at he'
          subst he'
          exact absurd hlt (not_lt.mpr he)
  · exact ⟨⟨db.next_id, t, c, some e, true⟩, by rw [hrows]; simp, rfl, rfl⟩

/-- Witness for C4: on a freshly created token with `expires_at = 3` already
past at `now = 5`, `validate` is false while the row is still active; and the
iff holds at that state. -/
theorem validate_spec_witness :
    validate_api_token
      (create_api_token emptyDatabase "abc" (some 3) 0).2 "abc" 5 = false :=
  (((validate_spec emptyDatabase "abc" 5).2 3 0 (by decide) (by decide)).1)

/-- C5: `create` on a ledger that already holds a row with the same token
string fails with `DuplicateToken` and returns the ledger state exactly
unchanged. -/
theorem create_duplicate_rolls_back (db : Database) (t : String)
    (e : Option ℤ) (now : ℤ) (h : ∃ r ∈ db.api_tokens, r.token = t) :
    create_api_token db t e now = (Except.error DbError.duplicateToken, db) := by
  have : tokenExists db t = true := (tokenExists_iff db t).mpr h
  simp [create_api_token, this]

/-- Witness for C5 on a one-row ledger: the duplicate `create` fails and the
state (hence the row count) is unchanged. -/
theorem create_duplicate_rolls_back_witness :
    create_api_token sampleDb "abc" none 7 =
      (Except.error DbError.duplicateToken, sampleDb) :=
  create_duplicate_rolls_back sampleDb "abc" none 7
    ⟨sampleRow, by simp [sampleDb], rfl⟩

theorem cleanup_filter_eq (rl : RateLimiter) (tok : String) (now : ℤ)
    (hall : ∀ ts ∈ rl.token_requests tok, now - rl.window_seconds < ts) :
    (rl.token_requests tok).filter
      (fun ts => decide (now - rl.window_seconds < ts)) =
      rl.token_requests tok :=
  List.filter_eq_self.mpr fun a ha => decide_eq_true (hall a ha)

/-- Behaviour of `check_rate_limit` on the allow path: when the whole window
survives the purge and its count is below the limit, the call allows with
`remaining = limit - count - 1` and appends `now`; nothing else changes. -/
theorem check_allow_spec (rl : RateLimiter) (tok : String) (now : ℤ)
    (htok : tok ≠ "")
    (hall : ∀ ts ∈ rl.token_requests tok, now - rl.window_seconds < ts)
    (hcnt : (rl.token_requests tok).length < rl.requests_per_minute) :
    checkOutcome rl tok now = some (true,
      (rl.requests_per_minute : Int) - (rl.token_requests tok).length - 1) ∧
    (checkNext rl tok now).token_requests =
      updateMap rl.token_requests tok (rl.token_requests tok ++ [now]) ∧
    (checkNext rl tok now).requests_per_minute = rl.requests_per_minute ∧
    (checkNext rl tok now).window_seconds = rl.window_seconds ∧
    (checkNext rl tok now).db_manager = rl.db_manager := by
  have hfil := cleanup_filter_eq rl tok now hall
  unfold checkOutcome checkNext
  simp only [check_rate_limit, cleanup_old_requests, if_neg htok, hfil,
    updateMap_same, updateMap_updateMap, Nat.not_le.mpr hcnt, if_neg,
    ite_false]
  simp [Nat.not_le.mpr hcnt]

/-- Behaviour of `check_rate_limit` on the deny path: when the whole window
survives the purge, its count has reached a positive limit, the call denies
with `remaining = 0` and the state keeps exactly the purged window. -/
theorem check_deny_spec (rl : RateLimiter) (tok : String) (now : ℤ)
    (htok : tok ≠ "")
    (hall : ∀ ts ∈ rl.token_requests tok, now - rl.window_seconds < ts)
    (hpos : 0 < rl.requests_per_minute)
    (hcnt : rl.requests_per_minute ≤ (rl.token_requests tok).length) :
    checkOutcome rl tok now = some (false, 0) ∧
    (checkNext rl tok now).token_requests =
      updateMap rl.token_requests tok (rl.token_requests tok) ∧
    (checkNext rl tok now).requests_per_minute = rl.requests_per_minute ∧
    (checkNext rl tok now).window_seconds = rl.window_seconds ∧
    (checkNext rl tok now).db_manager = rl.db_manager := by
  have hfil := cleanup_filter_eq rl tok now hall
  have hne : rl.token_requests tok ≠ [] := by
    intro hnil
    rw [hnil] at hcnt
    simp at hcnt
    omega
  obtain ⟨o, rest, hor⟩ := List.exists_cons_of_ne_nil hne
  unfold checkOutcome checkNext
  simp only [check_rate_limit, cleanup_old_requests, if_neg htok, hfil,
    updateMap_same, updateMap_updateMap]
  rw [hor]
  have hcnt2 : rl.requests_per_minute ≤ rest.length + 1 := by
    have := hor ▸ hcnt
    simpa using this
  simp [hcnt2]

/-- C1 counterexample: a limiter configured with `limit = 0` and an empty
window for token `"abc"`. The claim says `check` returns a denial
(`allowed = false, remaining = 0`); the code instead takes the deny branch,
reads `self.token_requests["abc"][0]` on the purged empty list and raises
`IndexError`, i.e. the call fails rather than denying. -/
theorem limit_zero_empty_window_raises :
    (check_rate_limit (initLimiter 0 60 none) "abc" 0).1 =
      Except.error LimiterError.indexError ∧
    checkOutcome (initLimiter 0 60 none) "abc" 0 ≠ some (false, 0) :=
  ⟨rfl, by decide⟩

/-- C1 (amended): `limit = 0` never allows a request, but it does not deny
cleanly on an empty window: for every non-empty token, when the purged window
is empty the call raises `IndexError` (the read of the oldest timestamp of an
empty list), and when the purged window is non-empty it returns
`allowed = false, remaining = 0`. -/
theorem limit_zero_never_allows (rl : RateLimiter) (tok : String) (now : ℤ)
    (htok : tok ≠ "") (hzero : rl.requests_per_minute = 0) :
    ((cleanup_old_requests rl tok now).token_requests tok = [] →
      (check_rate_limit rl tok now).1 = Except.error LimiterError.indexError) ∧
    (∀ o rest,
      (cleanup_old_requests rl tok now).token_requests tok = o :: rest →
      ∃ rt, (check_rate_limit rl tok now).1 = Except.ok (false, 0, rt)) := by
  have hrpm : (cleanup_old_requests rl tok now).requests_per_minute =
      rl.requests_per_minute := rfl
  constructor
  · intro hnil
    simp only [check_rate_limit, if_neg htok]
    rw [hnil, hrpm, hzero]
    simp
  · intro o rest hcons
    simp only [check_rate_limit, if_neg htok]
    rw [hcons, hrpm, hzero]
    exact ⟨clampTime ((cleanup_old_requests rl tok now).window_seconds -
      (now - o)), by simp⟩

/-- Witness for C1 (amended) with `limit = 0`: the empty-window branch
raises `IndexError`. -/
theorem limit_zero_never_allows_witness :
    (check_rate_limit (initLimiter 0 60 none) "tok" 5).1 =
      Except.error LimiterError.indexError :=
  (limit_zero_never_allows (initLimiter 0 60 none) "tok" 5
    (by decide) rfl).1 rfl

/-- Sequential runs of `check_rate_limit` for one token at the given
instants, keeping only the final limiter state. -/
def runChecks (rl : RateLimiter) (tok : String) (times : List ℤ) :
    RateLimiter :=
  times.foldl (fun s t => checkNext s tok t) rl

/-- C3: with `limit = 5`, `window_seconds = 60`, a single token starting from
an empty window and six nondecreasing call instants all inside one window,
the first five `check` calls allow with `remaining = 4, 3, 2, 1, 0` and the
sixth denies with `remaining = 0`. -/
theorem five_calls_then_deny (tok : String) (htok : tok ≠ "")
    (t1 t2 t3 t4 t5 t6 : ℤ) (h12 : t1 ≤ t2) (h23 : t2 ≤ t3) (h34 : t3 ≤ t4)
    (h45 : t4 ≤ t5) (h56 : t5 ≤ t6) (hwin : t6 < t1 + 60) :
    checkOutcome (runChecks (initLimiter 5 60 none) tok []) tok t1
      = some (true, 4) ∧
    checkOutcome (runChecks (initLimiter 5 60 none) tok [t1]) tok t2
      = some (true, 3) ∧
    checkOutcome (runChecks (initLimiter 5 60 none) tok [t1, t2]) tok t3
      = some (true, 2) ∧
    checkOutcome (runChecks (initLimiter 5 60 none) tok [t1, t2, t3]) tok t4
      = some (true, 1) ∧
    checkOutcome (runChecks (initLimiter 5 60 none) tok [t1, t2, t3, t4])
      tok t5 = some (true, 0) ∧
    checkOutcome (runChecks (initLimiter 5 60 none) tok [t1, t2, t3, t4, t5])
      tok t6 = some (false, 0) := by
  set s0 := initLimiter 5 60 none with hs0
  have l0 : s0.token_requests tok = [] := rfl
  have p0 : s0.requests_per_minute = 5 := rfl
  have w0 : s0.window_seconds = 60 := rfl
  -- call 1
  obtain ⟨o1, m1, p1, w1, d1⟩ := check_allow_spec s0 tok t1 htok
    (by rw [l0]; intro ts hts; simp at hts) (by rw [l0, p0]; simp)
  set s1 := checkNext s0 tok t1 with hs1
  have c1 : checkOutcome s0 tok t1 = some (true, 4) := by
    rw [o1, p0, l0]; norm_num
  have l1 : s1.token_requests tok = [t1] := by
    rw [hs1, m1, updateMap_same, l0]; rfl
  have p1n : s1.requests_per_minute = 5 := by rw [hs1, p1, p0]
  have w1n : s1.window_seconds = 60 := by rw [hs1, w1, w0]
  -- call 2
  obtain ⟨o2, m2, p2, w2, d2⟩ := check_allow_spec s1 tok t2 htok
    (by rw [l1, w1n]; intro ts hts; simp at hts; omega)
    (by rw [l1, p1n]; simp)
  set s2 := checkNext s1 tok t2 with hs2
  have c2 : checkOutcome s1 tok t2 = some (true, 3) := by
    rw [o2, p1n, l1]; norm_num
  have l2 : s2.token_requests tok = [t1, t2] := by
    rw [hs2, m2, updateMap_same, l1]; rfl
  have p2n : s2.requests_per_minute = 5 := by rw [hs2, p2, p1n]
  have w2n : s2.window_seconds = 60 := by rw [hs2, w2, w1n]
  -- call 3
  obtain ⟨o3, m3, p3, w3, d3⟩ := check_allow_spec s2 tok t3 htok
    (by rw [l2, w2n]; intro ts hts; simp at hts; rcases hts with h | h <;> omega)
    (by rw [l2, p2n]; simp)
  set s3 := checkNext s2 tok t3 with hs3
  have c3 : checkOutcome s2 tok t3 = some (true, 2) := by
    rw [o3, p2n, l2]; norm_num
  have l3 : s3.token_requests tok = [t1, t2, t3] := by
    rw [hs3, m3, updateMap_same, l2]; rfl
  have p3n : s3.requests_per_minute = 5 := by rw [hs3, p3, p2n]
  have w3n : s3.window_seconds = 60 := by rw [hs3, w3, w2n]
  -- call 4
  obtain ⟨o4, m4, p4, w4, d4⟩ := check_allow_spec s3 tok t4 htok
    (by rw [l3, w3n]; intro ts hts; simp at hts
        rcases hts with h | h | h <;> omega)
    (by rw [l3, p3n]; simp)
  set s4 := checkNext s3 tok t4 with hs4
  have c4 : checkOutcome s3 tok t4 = some (true, 1) := by
    rw [o4, p3n, l3]; norm_num
  have l4 : s4.token_requests tok = [t1, t2, t3, t4] := by
    rw [hs4, m4, updateMap_same, l3]; rfl
  have p4n : s4.requests_per_minute = 5 := by rw [hs4, p4, p3n]
  have w4n : s4.window_seconds = 60 := by rw [hs4, w4, w3n]
  -- call 5
  obtain ⟨o5, m5, p5, w5, d5⟩ := check_allow_spec s4 tok t5 htok
    (by rw [l4, w4n]; intro ts hts; simp at hts
        rcases hts with h | h | h | h <;> omega)
    (by rw [l4, p4n]; simp)
  set s5 := checkNext s4 tok t5 with hs5
  have c5 : checkOutcome s4 tok t5 = some (true, 0) := by
    rw [o5, p4n, l4]; norm_num
  have l5 : s5.token_requests tok = [t1, t2, t3, t4, t5] := by
    rw [hs5, m5, updateMap_same, l4]; rfl
  have p5n : s5.requests_per_minute = 5 := by rw [hs5, p5, p4n]
  have w5n : s5.window_seconds = 60 := by rw [hs5, w5, w4n]
  -- call 6: denied
  obtain ⟨o6, m6, p6, w6, d6⟩ := check_deny_spec s5 tok t6 htok
    (by rw [l5, w5n]; intro ts hts; simp at hts
        rcases hts with h | h | h | h | h <;> omega)
    (by rw [p5n]; omega)
    (by rw [l5, p5n]; simp)
  exact ⟨c1, c2, c3, c4, c5, o6⟩

/-- Witness for C3 at instants `10, 11, 12, 13, 14, 15` for token `"a"`. -/
theorem five_calls_then_deny_witness :
    checkOutcome (runChecks (initLimiter 5 60 none) "a" []) "a" 10
      = some (true, 4) ∧
    checkOutcome (runChecks (initLimiter 5 60 none) "a" [10]) "a" 11
      = some (true, 3) ∧
    checkOutcome (runChecks (initLimiter 5 60 none) "a" [10, 11]) "a" 12
      = some (true, 2) ∧
    checkOutcome (runChecks (initLimiter 5 60 none) "a" [10, 11, 12]) "a" 13
      = some (true, 1) ∧
    checkOutcome (runChecks (initLimiter 5 60 none) "a" [10, 11, 12, 13])
      "a" 14 = some (true, 0) ∧
    checkOutcome (runChecks (initLimiter 5 60 none) "a" [10, 11, 12, 13, 14])
      "a" 15 = some (false, 0) :=
  five_calls_then_deny "a" (by decide) 10 11 12 13 14 15
    (by decide) (by decide) (by decide) (by decide) (by decide) (by decide)

/-- An observable operation on the limiter singleton: a `check_rate_limit`
call or a `reset_token_limit` call. -/
inductive LimOp where
  | check (tok : String) (now : ℤ)
  | reset (tok : String)

/-- The state left behind by one operation (a `check` mutates the state even
when it denies or raises: the purge has already been written back). -/
def applyOp (rl : RateLimiter) : LimOp → RateLimiter
  | LimOp.check tok now => (check_rate_limit rl tok now).2
  | LimOp.reset tok => reset_token_limit rl tok

/-- Sequential execution of a list of limiter operations. -/
def runOps (rl : RateLimiter) (ops : List LimOp) : RateLimiter :=
  ops.foldl applyOp rl

theorem check_rpm_eq (rl : RateLimiter) (tok : String) (now : ℤ) :
    (check_rate_limit rl tok now).2.requests_per_minute =
      rl.requests_per_minute := by
  unfold check_rate_limit
  by_cases htok : tok = ""
  · simp [htok]
  · simp only [if_neg htok]
    split
    · split <;> rfl
    · rfl

/-- The three possible shapes of the token map after a `check` call: left
untouched (empty-token error), purged only (deny or index error), or purged
with `now` appended under a strict count bound (allow). -/
theorem check_state_cases (rl : RateLimiter) (tok : String) (now : ℤ) :
    (check_rate_limit rl tok now).2.token_requests = rl.token_requests ∨
    (check_rate_limit rl tok now).2.token_requests =
      updateMap rl.token_requests tok
        ((rl.token_requests tok).filter
          (fun ts => decide (now - rl.window_seconds < ts))) ∨
    ((check_rate_limit rl tok now).2.token_requests =
      updateMap rl.token_requests tok
        ((rl.token_requests tok).filter
          (fun ts => decide (now - rl.window_seconds < ts)) ++ [now]) ∧
     ((rl.token_requests tok).filter
          (fun ts => decide (now - rl.window_seconds < ts))).length <
       rl.requests_per_minute) := by
  unfold check_rate_limit cleanup_old_requests
  by_cases htok : tok = ""
  · left; simp [htok]
  · simp only [if_neg htok, updateMap_same, updateMap_updateMap]
    split
    · split <;> right <;> left <;> rfl
    · right; right
      refine ⟨rfl, ?_⟩
      omega

theorem check_len_le (rl : RateLimiter) (tok : String) (now : ℤ)
    (t : String)
    (hinv : ∀ u, (rl.token_requests u).length ≤ rl.requests_per_minute) :
    ((check_rate_limit rl tok now).2.token_requests t).length ≤
      rl.requests_per_minute := by
  rcases check_state_cases rl tok now with h | h | ⟨h, hlt⟩
  · rw [h]; exact hinv t
  · rw [h]
    by_cases ht : t = tok
    · subst ht
      rw [updateMap_same]
      exact le_trans (List.length_filter_le _ _) (hinv t)
    · rw [updateMap_other _ _ _ _ ht]
      exact hinv t
  · rw [h]
    by_cases ht : t = tok
    · subst ht
      rw [updateMap_same, List.length_append]
      simpa using hlt
    · rw [updateMap_other _ _ _ _ ht]
      exact hinv t

theorem runOps_len_le (L : ℕ) (ops : List LimOp) :
    ∀ rl : RateLimiter, rl.requests_per_minute = L →
      (∀ u, (rl.token_requests u).length ≤ L) →
      ∀ t, ((runOps rl ops).token_requests t).length ≤ L := by
  induction ops with
  | nil => exact fun rl _ hinv t => hinv t
  | cons op rest ih =>
    intro rl hrpm hinv t
    have h1 : (applyOp rl op).requests_per_minute = L := by
      cases op with
      | check tok now => rw [applyOp, check_rpm_eq, hrpm]
      | reset tok => exact hrpm
    have h2 : ∀ u, ((applyOp rl op).token_requests u).length ≤ L := by
      intro u
      cases op with
      | check tok now =>
        rw [applyOp, ← hrpm]
        exact check_len_le rl tok now u (fun v => hrpm ▸ hinv v)
      | reset tok =>
        rw [applyOp, reset_token_limit]
        by_cases hu : u = tok
        · subst hu
          show (updateMap rl.token_requests u [] u).length ≤ L
          rw [updateMap_same]
          simp
        · show (updateMap rl.token_requests tok [] u).length ≤ L
          rw [updateMap_other _ _ _ _ hu]
          exact hinv u
    exact ih (applyOp rl op) h1 h2 t

/-- C9: for a limiter initialized with limit `L ≥ 1`, after any sequence of
`check` and `reset` operations every token's stored window holds at most `L`
timestamps. -/
theorem window_length_bounded (L : ℕ) (hL : 1 ≤ L) (w : ℤ)
    (db : Option Database) (ops : List LimOp) (t : String) :
    ((runOps (initLimiter L w db) ops).token_requests t).length ≤ L :=
  runOps_len_le L ops (initLimiter L w db) rfl
    (fun _ => by simp [initLimiter]) t

/-- Witness for C9: limit 1, three checks and a reset on token `"a"`, its
window length stays at most 1. -/
theorem window_length_bounded_witness :
    ((runOps (initLimiter 1 60 none)
        [LimOp.check "a" 0, LimOp.check "a" 1, LimOp.reset "a",
         LimOp.check "a" 2]).token_requests "a").length ≤ 1 :=
  window_length_bounded 1 (by decide) 60 none
    [LimOp.check "a" 0, LimOp.check "a" 1, LimOp.reset "a",
     LimOp.check "a" 2] "a"

/-- C6: when a ledger is configured and `validate` rejects the presented
token, the gateway dependency fails with `AuthInvalid` and the limiter state
— in particular the token's recorded window — is exactly the state before
the call: the ledger check runs and fails before `check_rate_limit` is ever
invoked. -/
theorem auth_invalid_consumes_no_quota (rl : RateLimiter) (db : Database)
    (t : String) (now : ℤ) (hdb : rl.db_manager = some db)
    (hval : validate_api_token db t now = false) :
    check_rate_limit_dependency rl t now =
      (Except.error GatewayError.authInvalid, rl) := by
  unfold check_rate_limit_dependency
  rw [hdb]
  simp [hval]

/-- Witness for C6: an empty ledger rejects `"ghost"`, the dependency fails
with `AuthInvalid`, and the limiter state is returned unchanged. -/
theorem auth_invalid_consumes_no_quota_witness :
    check_rate_limit_dependency
      (initLimiter 100 60 (some emptyDatabase)) "ghost" 0 =
    (Except.error GatewayError.authInvalid,
      initLimiter 100 60 (some emptyDatabase)) :=
  auth_invalid_consumes_no_quota
    (initLimiter 100 60 (some emptyDatabase)) emptyDatabase "ghost" 0
    rfl (by decide)

/-- C8: with no database manager configured the gateway dependency skips
ledger validation entirely — it is definitionally the bare rate-limit step —
and any token whose `check` call allows (its quota is not exhausted) is
admitted, no matter whether it was ever created, was deactivated, or is past
expiry. -/
theorem no_ledger_skips_validation (rl : RateLimiter) (t : String)
    (now : ℤ) (rem rt : Int) (rl2 : RateLimiter)
    (hdb : rl.db_manager = none) :
    check_rate_limit_dependency rl t now = rateLimitStep rl t now ∧
    (check_rate_limit rl t now = (Except.ok (true, rem, rt), rl2) →
      check_rate_limit_dependency rl t now = (Except.ok t, rl2)) := by
  have hskip : check_rate_limit_dependency rl t now = rateLimitStep rl t now := by
    unfold check_rate_limit_dependency
    rw [hdb]
  refine ⟨hskip, fun hallow => ?_⟩
  rw [hskip]
  unfold rateLimitStep
  rw [hallow]
  simp

/-- Witness for C8: the never-created token `"ghost"` is admitted by the
dependency when no ledger is configured. -/
theorem no_ledger_skips_validation_witness :
    check_rate_limit_dependency (initLimiter 100 60 none) "ghost" 0 =
      (Except.ok "ghost",
        (check_rate_limit (initLimiter 100 60 none) "ghost" 0).2) :=
  (no_ledger_skips_validation (initLimiter 100 60 none) "ghost" 0 99 60
    ((check_rate_limit (initLimiter 100 60 none) "ghost" 0).2) rfl).2 rfl

/-- C10: re-invoking the singleton constructor with `requests_per_minute`
different from the default 100 updates the limit and clears every token's
recorded window; re-invoking it with the default limit and a
`window_seconds` different from the default 60 updates the window length
while leaving the limit and every recorded window untouched. -/
theorem reinit_spec (rl : RateLimiter) (rpm : ℕ) (ws : ℤ)
    (db : Option Database) :
    (rpm ≠ 100 →
      (reinitLimiter rl rpm ws db).requests_per_minute = rpm ∧
      ∀ t, (reinitLimiter rl rpm ws db).token_requests t = []) ∧
    (ws ≠ 60 →
      (reinitLimiter rl 100 ws db).window_seconds = ws ∧
      (reinitLimiter rl 100 ws db).requests_per_minute =
        rl.requests_per_minute ∧
      ∀ t, (reinitLimiter rl 100 ws db).token_requests t =
        rl.token_requests t) := by
  constructor
  · intro h
    by_cases hws : ws = DEFAULT_WINDOW_SECONDS <;>
      cases db <;>
        simp [reinitLimiter, DEFAULT_REQUESTS_PER_MINUTE, h, hws]
  · intro h
    cases db <;>
      simp [reinitLimiter, DEFAULT_REQUESTS_PER_MINUTE,
        DEFAULT_WINDOW_SECONDS, h]

/-- Witness for C10: re-initializing with limit 5 clears a recorded window;
re-initializing with only `window_seconds = 30` keeps it. -/
theorem reinit_spec_witness :
    ((reinitLimiter (checkNext (initLimiter 100 60 none) "a" 0) 5 60
        none).token_requests "a" = [] ) ∧
    ((reinitLimiter (checkNext (initLimiter 100 60 none) "a" 0) 100 30
        none).token_requests "a" =
      (checkNext (initLimiter 100 60 none) "a" 0).token_requests "a") :=
  ⟨((reinit_spec (checkNext (initLimiter 100 60 none) "a" 0) 5 60
      none).1 (by decide)).2 "a",
   ((reinit_spec (checkNext (initLimiter 100 60 none) "a" 0) 5 30
      none).2 (by decide)).2.2 "a"⟩

/-! ## Interleaved execution of `check_rate_limit` (for the concurrency
claim)

`check_rate_limit` holds no lock. Under CPython threading (FastAPI runs this
sync dependency in a worker threadpool) a thread switch can occur between
the purge-count-compare statements (lines 72-76 of `rate_limit.py`) and the
append statement (line 86): each region is modelled as one atomic step, and
a schedule fixes the interleaving of the steps of several pending calls. -/

structure PendingCall where
  tok : String
  now : ℤ
deriving DecidableEq, Repr

inductive CallPhase where
  | notStarted
  | decided (allowed : Bool)
  | finished (allowed : Bool)
deriving DecidableEq, Repr

/-- Shared limiter map plus the progress of each pending call. -/
structure ConcState where
  shared : String → List ℤ
  calls : List (PendingCall × CallPhase)

/-- Atomic region A of one `check` call: the purge write-back, the count and
the comparison with the limit (`rate_limit.py` lines 72-76). -/
def checkPhaseA (limit : ℕ) (window : ℤ) (m : String → List ℤ)
    (c : PendingCall) : (String → List ℤ) × Bool :=
  let purged := (m c.tok).filter (fun ts => decide (c.now - window < ts))
  (updateMap m c.tok purged, decide (purged.length < limit))

/-- Atomic region B of one `check` call: the append of `now`, executed only
when region A decided to allow (`rate_limit.py` line 86). -/
def checkPhaseB (m : String → List ℤ) (c : PendingCall) (allowed : Bool) :
    String → List ℤ :=
  if allowed then updateMap m c.tok (m c.tok ++ [c.now]) else m

/-- Run the next atomic region of call `i` (a no-op for an out-of-range
index or a finished call). -/
def stepCall (limit : ℕ) (window : ℤ) (s : ConcState) (i : ℕ) : ConcState :=
  match s.calls.get? i with
  | none => s
  | some (c, CallPhase.notStarted) =>
    let r := checkPhaseA limit window s.shared c
    ⟨r.1, s.calls.set i (c, CallPhase.decided r.2)⟩
  | some (c, CallPhase.decided a) =>
    ⟨checkPhaseB s.shared c a, s.calls.set i (c, CallPhase.finished a)⟩
  | some (_, CallPhase.finished _) => s

/-- Execute a schedule: a list of call indices, each running that call's
next atomic region. -/
def runSchedule (limit : ℕ) (window : ℤ) (s : ConcState)
    (sched : List ℕ) : ConcState :=
  sched.foldl (stepCall limit window) s

/-- Sanity: running both regions of a single call back to back produces
exactly the shared map that the sequential `check_rate_limit` leaves behind,
so the two atomic regions are a faithful decomposition of the call. -/
theorem phases_compose (rl : RateLimiter) (c : PendingCall)
    (htok : c.tok ≠ "") :
    checkPhaseB
      (checkPhaseA rl.requests_per_minute rl.window_seconds
        rl.token_requests c).1 c
      (checkPhaseA rl.requests_per_minute rl.window_seconds
        rl.token_requests c).2 =
    (check_rate_limit rl c.tok c.now).2.token_requests := by
  unfold checkPhaseA checkPhaseB check_rate_limit cleanup_old_requests
  simp only [if_neg htok, updateMap_same, updateMap_updateMap]
  by_cases h : ((rl.token_requests c.tok).filter
      (fun ts => decide (c.now - rl.window_seconds < ts))).length <
      rl.requests_per_minute
  · simp [h, Nat.not_le.mpr h]
  · have hle := Nat.le_of_not_lt h
    rw [if_neg (by simpa using h), if_pos hle]
    split <;> rfl

/-- C7: the code has no critical section, so the claimed exactly-L outcome
fails under interleaving. Failing input: `limit = 1`, two concurrent `check`
calls for token `"t"` at instant 0, scheduled so that both purge-count-
compare regions run before either append (schedule `[0, 1, 0, 1]`). Both
calls finish with `allowed = true`: 2 allowed out of N = 2 > L = 1, an
overshoot, where the claim demands exactly 1 allowed. -/
theorem concurrent_checks_overshoot :
    ((runSchedule 1 60
        ⟨fun _ => [],
         [(⟨"t", 0⟩, CallPhase.notStarted),
          (⟨"t", 0⟩, CallPhase.notStarted)]⟩
        [0, 1, 0, 1]).calls.map Prod.snd) =
      [CallPhase.finished true, CallPhase.finished true] := rfl

end DtseTask
